import Mathlib

/-!
Verification development for the streamduck control core: a shallow
embedding of the panel-stack engine, the device core lifecycle, the client
socket protocol helpers, the daemon config request handlers, and the folder
module, with theorems about their specified properties.

Modelling conventions: machine bytes are `Nat` with explicit `< 256`
bounds; Rust `Result`/fallible calls are `Except`/`Option`; mutable state
is passed explicitly; channels are modelled as the list of messages sent on
them; external collaborators (serde_json, flate2) are parameters of the
functions that call them.
-/

set_option maxHeartbeats 1000000

/-- Socket packet envelope, from streamduck-core socket module (declaration
site not under src/; fields mirrored from their uses in
streamduck-client/src/util.rs and the spec: discriminant name, optional
correlation token, optional payload, the payload held as its raw JSON
text since handlers parse it themselves). -/
structure SocketPacket where
  name : String
  requester : Option String
  data : Option String
deriving DecidableEq

/-- Client-side error type of streamduck-client (crate root not under src/;
modelled from the three fallible steps of util.rs `read_socket`: stream
I/O failure, invalid UTF-8, JSON parse failure — one distinct constructor
each). -/
inductive SDClientError where
  | SocketError (msg : String)
  | Utf8Error
  | JsonError (msg : String)
deriving DecidableEq

/-- Embedding of `read_response` (streamduck-client/src/util.rs, lines
32-40): the connection is modelled as the list of successive `read_socket`
results; the loop propagates a read error, returns the first packet whose
`requester` (absent treated as the empty string, mirroring
`packet.requester.as_ref().unwrap_or(&"".to_string())`) equals the token,
and discards every other packet.  `none` models the loop still blocked
when the modelled read sequence is exhausted. -/
def read_response : List (Except SDClientError SocketPacket) → String → Option (Except SDClientError SocketPacket)
  | [], _ => none
  | (Except.error e) :: _, _ => some (Except.error e)
  | (Except.ok p) :: rest, requester =>
    if p.requester.getD ("") = requester then
      some (Except.ok p)
    else
      read_response rest requester

/-- Panel stack push, appending the new frame as the new active (topmost)
frame.  Modelled from the spec: `push_screen` lives in
streamduck-core/src/core/methods.rs which is not under src/; the spec
states push appends and the pushed frame becomes active. -/
def push_screen (stack : List α) (panel : α) : List α :=
  stack ++ [panel]

/-- Panel stack pop.  Modelled from the spec: `pop_screen` lives in
streamduck-core/src/core/methods.rs which is not under src/; the spec
states pop removes the top frame unless the stack has exactly one frame,
in which case it is a silent no-op. -/
def pop_screen (stack : List α) : List α :=
  if stack.length ≤ 1 then stack else stack.dropLast

/-- Panel stack reset.  Modelled from the spec: `reset_stack` lives in
streamduck-core/src/core/methods.rs which is not under src/; the spec
states reset replaces the entire stack with the single root frame. -/
def reset_stack (_stack : List α) (root : α) : List α :=
  [root]

/-- Panel stack snapshot.  Modelled from the spec: `get_stack` lives in
streamduck-core/src/core/methods.rs which is not under src/; it returns
the current sequence. -/
def get_stack (stack : List α) : List α :=
  stack

/-- The folder module's back-button handler on a ButtonAction event
(streamduck-core/src/modules/folders.rs, lines 321-325): pop only when the
stack holds more than one frame. -/
def folder_up_action (stack : List α) : List α :=
  if (get_stack stack).length > 1 then pop_screen stack else stack

/-- A navigation operation on the panel stack: push a frame, pop, or the
folder module's guarded pop. -/
inductive StackOp (α : Type) where
  | push (panel : α)
  | pop
  | folderUp

/-- Apply one navigation operation to a stack. -/
def applyStackOp (stack : List α) : StackOp α → List α
  | StackOp.push p => push_screen stack p
  | StackOp.pop => pop_screen stack
  | StackOp.folderUp => folder_up_action stack

/-- Apply a sequence of navigation operations, oldest first. -/
def applyStackOps (stack : List α) (ops : List (StackOp α)) : List α :=
  ops.foldl applyStackOp stack

/-- Commands the core sends to the device worker thread.
`DeviceThreadCommunication` is declared in streamduck-core/src/thread
(not under src/); constructors modelled from the spec's outbound command
set (RefreshScreen, SetImage, SetBrightness, Shutdown) and the
`RefreshScreen` use in core/mod.rs. -/
inductive DeviceThreadCommunication where
  | RefreshScreen
  | SetImage (key : Nat)
  | SetBrightness (value : Nat)
  | Shutdown
deriving DecidableEq

/-- Global socket events emitted by the core.  Declared in
streamduck-core/src/modules/events.rs (not under src/); the two
constructors used in core/mod.rs are mirrored. -/
inductive SDGlobalEvent where
  | DeviceConnected (serial_number : String)
  | DeviceDisconnected (serial_number : String)
deriving DecidableEq

/-- State of `SDCore` (streamduck-core/src/core/mod.rs) restricted to the
fields the claims concern: serial number, the panel stack (elements of an
abstract panel type), and the `should_close` liveness flag. -/
structure SDCoreState (π : Type) where
  serial_number : String
  current_stack : List π
  should_close : Bool
deriving DecidableEq

/-- Embedding of `SDCore::blank` (core/mod.rs, lines 122-142): the stack
is initialized to the empty vector and the liveness flag to closed. -/
def SDCore.blank (serial : String) : SDCoreState π :=
  { serial_number := serial, current_stack := [], should_close := true }

/-- Embedding of `SDCore::new` (core/mod.rs, lines 145-185): emits a
DeviceConnected event, initializes the stack to the empty vector and the
liveness flag to open.  Returns the state together with the socket events
sent. -/
def SDCore.new (serial : String) : SDCoreState π × List SDGlobalEvent :=
  ({ serial_number := serial, current_stack := [], should_close := false },
   [SDGlobalEvent.DeviceConnected serial])

/-- Embedding of `SDCore::is_closed` (core/mod.rs, lines 207-209). -/
def SDCore.is_closed (c : SDCoreState π) : Bool :=
  c.should_close

/-- Embedding of `SDCore::close` (core/mod.rs, lines 212-219): sends a
DeviceDisconnected event to the socket manager, then sets `should_close`
to true.  Returns the new state, the socket events sent, and the commands
sent on the device worker channel (the body contains no send on that
channel, so that list is empty). -/
def SDCore.close (c : SDCoreState π) : SDCoreState π × List SDGlobalEvent × List DeviceThreadCommunication :=
  ({ c with should_close := true },
   [SDGlobalEvent.DeviceDisconnected c.serial_number],
   [])

/-- Embedding of `SDCore::mark_for_redraw` (core/mod.rs, lines 188-192):
the commands sent on the device worker channel. -/
def SDCore.mark_for_redraw (_c : SDCoreState π) : List DeviceThreadCommunication :=
  [DeviceThreadCommunication.RefreshScreen]

/-- A button-down or button-up action dispatched by the key handler. -/
inductive KeyAction where
  | down (key : Nat)
  | up (key : Nat)
deriving DecidableEq

/-- Result of one `receiver.recv()` call in the key handler loop: either a
key transition event or the channel reporting the sender gone. -/
inductive RecvResult where
  | ev (key : Nat) (pressed : Bool)
  | disconnected
deriving DecidableEq

/-- The dispatch performed for one received key event (core/mod.rs lines
241-245): press dispatches button_down, release dispatches button_up. -/
def dispatch_key (key : Nat) (pressed : Bool) : KeyAction :=
  if pressed then KeyAction.down key else KeyAction.up key

/-- Embedding of `KeyHandler::run_loop` (core/mod.rs, lines 234-250) over
an observation trace: each iteration records the value of `is_closed()`
the loop observed and the result of `recv()`.  If the flag is observed
closed the loop breaks before receiving; if the channel is disconnected
the loop breaks; otherwise the event is dispatched and the loop
continues.  Returns the list of dispatched actions in order. -/
def run_loop : List (Bool × RecvResult) → List KeyAction
  | [] => []
  | (closedObserved, r) :: rest =>
    if closedObserved then
      []
    else
      match r with
      | RecvResult.disconnected => []
      | RecvResult.ev key pressed => dispatch_key key pressed :: run_loop rest

/-- The action an iteration's recv result would dispatch, if any. -/
def recv_action : RecvResult → Option KeyAction
  | RecvResult.ev k s => some (dispatch_key k s)
  | RecvResult.disconnected => none

/-- Embedding of `BufRead::read_until` as used by `read_socket`
(streamduck-client/src/util.rs, line 25): accumulate bytes up to and
including the first occurrence of the delimiter; at end of stream return
everything read. -/
def read_until_delim (delim : Nat) : List Nat → List Nat
  | [] => []
  | b :: rest => if b = delim then [b] else b :: read_until_delim delim rest

/-- Strict UTF-8 decoding of a byte sequence, as performed by Rust's
`String::from_utf8`: rejects overlong encodings, surrogate code points and
values above 0x10FFFF.  Returns the decoded characters, or `none` on
invalid UTF-8. -/
def utf8Decode : List Nat → Option (List Char)
  | [] => some []
  | b :: rest =>
    if b < 128 then
      (utf8Decode rest).map (fun cs => Char.ofNat b :: cs)
    else if b < 194 then
      none
    else if b < 224 then
      match rest with
      | c1 :: rest2 =>
        if 128 ≤ c1 ∧ c1 < 192 then
          (utf8Decode rest2).map (fun cs => Char.ofNat ((b - 192) * 64 + (c1 - 128)) :: cs)
        else none
      | [] => none
    else if b < 240 then
      match rest with
      | c1 :: c2 :: rest3 =>
        if (if b = 224 then 160 else 128) ≤ c1 ∧ c1 < (if b = 237 then 160 else 192)
            ∧ 128 ≤ c2 ∧ c2 < 192 then
          (utf8Decode rest3).map
            (fun cs => Char.ofNat ((b - 224) * 4096 + (c1 - 128) * 64 + (c2 - 128)) :: cs)
        else none
      | _ => none
    else if b < 245 then
      match rest with
      | c1 :: c2 :: c3 :: rest4 =>
        if (if b = 240 then 144 else 128) ≤ c1 ∧ c1 < (if b = 244 then 144 else 192)
            ∧ 128 ≤ c2 ∧ c2 < 192 ∧ 128 ≤ c3 ∧ c3 < 192 then
          (utf8Decode rest4).map
            (fun cs => Char.ofNat ((b - 240) * 262144 + (c1 - 128) * 4096 + (c2 - 128) * 64 + (c3 - 128)) :: cs)
        else none
      | _ => none
    else none

/-- Rust's `char::is_whitespace` (the Unicode White_Space property), used
by `str::trim`. -/
def rustIsWhitespace (c : Char) : Bool :=
  let n := c.toNat
  (9 ≤ n && n ≤ 13) || n == 32 || n == 133 || n == 160 || n == 5760 ||
    (8192 ≤ n && n ≤ 8202) || n == 8232 || n == 8233 || n == 8239 || n == 8287 || n == 12288

/-- Rust's `str::trim`: drop leading and trailing whitespace. -/
def trim_chars (l : List Char) : List Char :=
  ((l.dropWhile rustIsWhitespace).reverse.dropWhile rustIsWhitespace).reverse

/-- The `line.replace("\u0004", "")` step of `read_socket`: remove every
EOT character. -/
def remove_eot (l : List Char) : List Char :=
  l.filter (fun c => c != Char.ofNat 4)

/-- Embedding of `read_socket` (streamduck-client/src/util.rs, lines
23-30).  The stream is the list of bytes the reader can deliver, `ioError`
models `read_until` failing with an I/O error, and `parse` is the external
`serde_json::from_str` collaborator, returning the packet or a parse
error message.  Each failure maps to its distinct `SDClientError`
constructor; the function is total (never panics). -/
def read_socket (parse : String → Except String SocketPacket) (ioError : Option String)
    (stream : List Nat) : Except SDClientError SocketPacket :=
  match ioError with
  | some e => Except.error (SDClientError.SocketError e)
  | none =>
    match utf8Decode (read_until_delim 4 stream) with
    | none => Except.error SDClientError.Utf8Error
    | some chars =>
      match parse (String.mk (trim_chars (remove_eot chars))) with
      | Except.error msg => Except.error (SDClientError.JsonError msg)
      | Except.ok packet => Except.ok packet

/-- Concrete JSON-parse stand-in used by the read_socket witness. -/
def witnessParse (s : String) : Except String SocketPacket :=
  if s = "h" then Except.ok ⟨"ping", none, none⟩ else Except.error ("bad")

/-- JSON value type mirroring `serde_json::Value` (numbers restricted to
integers; no claim inspects numeric payloads). -/
inductive Json where
  | null
  | bool (b : Bool)
  | num (n : Int)
  | str (s : String)
  | arr (items : List Json)
  | obj (fields : List (String × Json))

/-- The folder component (streamduck-core/src/modules/folders.rs, lines
521-530). -/
structure FolderComponent where
  id : String
  name : String
deriving DecidableEq

/-- Button, an extensible bag of named components
(streamduck-core/src/core/button.rs, not under src/).  Only the component
the folder module's recursive deletion parses is modelled explicitly: the
optional folder component; all other components are opaque to the claims. -/
structure Button where
  folder : Option FolderComponent
deriving DecidableEq

/-- Embedding of `parse_button_to_component::<FolderComponent>` as used by
folders.rs: succeeds exactly when the button carries a folder component. -/
def parse_button_to_folder (b : Button) : Option FolderComponent :=
  b.folder

/-- Panel definition (streamduck-core/src/core/mod.rs, lines 40-51):
display name, data blob, and the button mapping. -/
structure Panel (T : Type) where
  display_name : String
  data : Json
  buttons : T

/-- Value-form panel: key index to owned button (core/mod.rs line 37; the
`HashMap<u8, Button>` is modelled as an association list). -/
def RawButtonPanel : Type := Panel (List (Nat × Button))

/-- Folder storage parsed from plugin data (folders.rs line 384):
folder id to panel, as an association list. -/
def FolderMap : Type := List (String × RawButtonPanel)

/-- Embedding of `FolderModule::get_folder` (folders.rs, lines 450-463):
look the folder id up in the parsed folder map. -/
def FolderModule.get_folder (folders : FolderMap) (folder_id : String) : Option RawButtonPanel :=
  List.lookup folder_id folders

/-- Embedding of `FolderModule::delete_folder` (folders.rs, lines
485-501): remove the folder id from the folder map. -/
def FolderModule.delete_folder (folders : FolderMap) (folder_id : String) : FolderMap :=
  folders.filter (fun kv => kv.1 != folder_id)

mutual

/-- Embedding of `FolderModule::delete_folder_recursively` (folders.rs,
lines 503-517), with the device config's folder map passed explicitly and
the `HashSet` of visited ids as a list.  The Rust recursion carries no
fuel; the `fuel` argument makes the embedding total, with `none` meaning
the fuel ran out before the recursion finished (the termination theorem
shows enough fuel always exists). -/
def delete_folder_recursively : Nat → FolderMap → String → List String → Option (FolderMap × List String)
  | 0, _, _, _ => none
  | fuel + 1, folders, folder_id, ids =>
    match FolderModule.get_folder folders folder_id with
    | none => some (folders, ids)
    | some folder =>
      match delete_folder_buttons fuel folders folder.buttons ids with
      | none => none
      | some (folders2, ids2) => some (FolderModule.delete_folder folders2 folder_id, ids2)

/-- The `for (_, button) in folder.buttons` loop body of
`delete_folder_recursively`: for each button carrying a folder component
whose id is not yet visited, mark it visited and recurse. -/
def delete_folder_buttons : Nat → FolderMap → List (Nat × Button) → List String → Option (FolderMap × List String)
  | _, folders, [], ids => some (folders, ids)
  | fuel, folders, (_, button) :: rest, ids =>
    match parse_button_to_folder button with
    | none => delete_folder_buttons fuel folders rest ids
    | some fc =>
      if fc.id ∈ ids then
        delete_folder_buttons fuel folders rest ids
      else
        match delete_folder_recursively fuel folders fc.id (fc.id :: ids) with
        | none => none
        | some (folders2, ids2) => delete_folder_buttons fuel folders2 rest ids2

end

/-- Folder-component ids carried by the buttons of one panel. -/
def button_folder_ids (buttons : List (Nat × Button)) : List String :=
  buttons.filterMap (fun kv => (parse_button_to_folder kv.2).map (fun fc => fc.id))

/-- All folder-component ids occurring anywhere in a folder map. -/
def folder_component_ids (folders : FolderMap) : Finset String :=
  (folders.flatMap (fun kv => button_folder_ids kv.2.buttons)).toFinset

/-- Configuration store errors (streamduck-core/src/config.rs, not under
src/): the three constructors matched exhaustively by
ImportDeviceConfig::process (daemon_data/config.rs, lines 336-344). -/
inductive ConfigError where
  | IoError (msg : String)
  | ParseError (msg : String)
  | DeviceNotFound
deriving DecidableEq

/-- Device configuration (streamduck-core/src/config.rs, not under src/;
fields mirrored from their uses in daemon_data/config.rs: serial, vid,
pid, brightness, the layout panel, and the plugin data blob). -/
structure DeviceConfig where
  serial : String
  vid : Nat
  pid : Nat
  brightness : Nat
  layout : RawButtonPanel
  plugin_data : List (String × Json)

/-- A device entry of the core manager (streamduck-daemon core_manager,
not under src/; fields mirrored from ImportDeviceConfig::process). -/
structure Device where
  serial : String
  vid : Nat
  pid : Nat

/-- The daemon listener state visible to the config request handlers:
the configuration store and device registry operations, as abstract
functions.  Modelled from the spec: the store itself is not under src/;
the spec gives it get/save/reload by serial number with a distinguished
device-not-found outcome. -/
structure DaemonListener where
  get_device_config : String → Option DeviceConfig
  reload_device_config : String → Except ConfigError Unit
  save_device_config : String → Except ConfigError Unit
  get_device : String → Option Device

/-- Request payload of ReloadDeviceConfig (daemon_data/config.rs, lines
57-60). -/
structure ReloadDeviceConfig where
  serial_number : String

/-- Response of ReloadDeviceConfig (daemon_data/config.rs, lines 63-73). -/
inductive ReloadDeviceConfigResult where
  | ConfigError
  | DeviceNotFound
  | Reloaded
deriving DecidableEq

/-- Embedding of `ReloadDeviceConfig::process` (daemon_data/config.rs,
lines 83-112), restricted to the response written: `none` for the request
argument models `parse_packet_to_data` failing (payload absent or
malformed), in which case no response is written; the stack-reset side
effect on success is not modelled. -/
def ReloadDeviceConfig.process (listener : DaemonListener) (request : Option ReloadDeviceConfig) :
    Option ReloadDeviceConfigResult :=
  match request with
  | none => none
  | some r =>
    match listener.reload_device_config r.serial_number with
    | Except.ok _ => some ReloadDeviceConfigResult.Reloaded
    | Except.error ConfigError.DeviceNotFound => some ReloadDeviceConfigResult.DeviceNotFound
    | Except.error _ => some ReloadDeviceConfigResult.ConfigError

/-- Request payload of SaveDeviceConfig (daemon_data/config.rs, lines
145-148). -/
structure SaveDeviceConfig where
  serial_number : String

/-- Response of SaveDeviceConfig (daemon_data/config.rs, lines 151-161). -/
inductive SaveDeviceConfigResult where
  | ConfigError
  | DeviceNotFound
  | Saved
deriving DecidableEq

/-- Embedding of `SaveDeviceConfig::process` (daemon_data/config.rs, lines
171-189), restricted to the response written. -/
def SaveDeviceConfig.process (listener : DaemonListener) (request : Option SaveDeviceConfig) :
    Option SaveDeviceConfigResult :=
  match request with
  | none => none
  | some r =>
    match listener.save_device_config r.serial_number with
    | Except.ok _ => some SaveDeviceConfigResult.Saved
    | Except.error ConfigError.DeviceNotFound => some SaveDeviceConfigResult.DeviceNotFound
    | Except.error _ => some SaveDeviceConfigResult.ConfigError

/-- Request payload of GetDeviceConfig (daemon_data/config.rs, lines
192-195). -/
structure GetDeviceConfig where
  serial_number : String

/-- Response of GetDeviceConfig (daemon_data/config.rs, lines 198-205). -/
inductive GetDeviceConfigResult where
  | DeviceNotFound
  | Config (config : DeviceConfig)

/-- Embedding of `GetDeviceConfig::process` (daemon_data/config.rs, lines
215-226). -/
def GetDeviceConfig.process (listener : DaemonListener) (request : Option GetDeviceConfig) :
    Option GetDeviceConfigResult :=
  match request with
  | none => none
  | some r =>
    match listener.get_device_config r.serial_number with
    | some config => some (GetDeviceConfigResult.Config config)
    | none => some GetDeviceConfigResult.DeviceNotFound

/-- The base64 alphabet (RFC 4648, as used by `base64::encode` and
`base64::decode` with the standard configuration). -/
def b64Table : List Char :=
  "ABCDEFGHIJKLMNOPQRSTUVWXYZabcdefghijklmnopqrstuvwxyz0123456789+/".toList

/-- Character of a sextet value (only used for values below 64). -/
def b64CharAt (i : Nat) : Char :=
  b64Table.getD i '='

/-- Scan of the alphabet for a character's sextet value. -/
def b64IndexAux (c : Char) : List Char → Nat → Option Nat
  | [], _ => none
  | x :: xs, i => if x = c then some i else b64IndexAux c xs (i + 1)

/-- Sextet value of an alphabet character, `none` for a character outside
the alphabet. -/
def b64IndexOf (c : Char) : Option Nat :=
  b64IndexAux c b64Table 0

/-- Base64 encoding of a byte list, three bytes to four characters with
trailing `=` padding. -/
def base64_encode_chunks : List Nat → List Char
  | [] => []
  | [a] => [b64CharAt (a / 4), b64CharAt (a % 4 * 16), '=', '=']
  | [a, b] => [b64CharAt (a / 4), b64CharAt (a % 4 * 16 + b / 16), b64CharAt (b % 16 * 4), '=']
  | a :: b :: c :: rest =>
    b64CharAt (a / 4) :: b64CharAt (a % 4 * 16 + b / 16) :: b64CharAt (b % 16 * 4 + c / 64)
      :: b64CharAt (c % 64) :: base64_encode_chunks rest

/-- Embedding of `base64::encode` (external collaborator of
ExportDeviceConfig::process). -/
def base64_encode (bytes : List Nat) : String :=
  String.mk (base64_encode_chunks bytes)

/-- Base64 decoding: four characters to three bytes, strict about padding
placement, trailing bits and input length, rejecting characters outside
the alphabet. -/
def base64_decode_chunks : List Char → Option (List Nat)
  | [] => some []
  | c1 :: c2 :: c3 :: c4 :: rest =>
    match b64IndexOf c1, b64IndexOf c2 with
    | some i1, some i2 =>
      if c3 = '=' then
        if c4 = '=' ∧ rest = [] ∧ i2 % 16 = 0 then some [i1 * 4 + i2 / 16] else none
      else
        match b64IndexOf c3 with
        | some i3 =>
          if c4 = '=' then
            if rest = [] ∧ i3 % 4 = 0 then some [i1 * 4 + i2 / 16, i2 % 16 * 16 + i3 / 4]
            else none
          else
            match b64IndexOf c4 with
            | some i4 =>
              (base64_decode_chunks rest).map
                (fun bs => (i1 * 4 + i2 / 16) :: (i2 % 16 * 16 + i3 / 4) :: (i3 % 4 * 64 + i4) :: bs)
            | none => none
        | none => none
    | _, _ => none
  | _ => none

/-- Embedding of `base64::decode` (external collaborator of
ImportDeviceConfig::process). -/
def base64_decode (s : String) : Except String (List Nat) :=
  match base64_decode_chunks s.toList with
  | some bs => Except.ok bs
  | none => Except.error ("invalid base64")

/-- Request payload of ExportDeviceConfig (daemon_data/config.rs, lines
229-232). -/
structure ExportDeviceConfig where
  serial_number : String

/-- Response of ExportDeviceConfig (daemon_data/config.rs, lines
235-245). -/
inductive ExportDeviceConfigResult where
  | DeviceNotFound
  | FailedToCompress
  | Exported (data : String)
deriving DecidableEq

/-- Embedding of `ExportDeviceConfig::process` (daemon_data/config.rs,
lines 255-276): look up the device config, serialize it (`serialize`
models `serde_json::to_string`), gzip-compress it (`compress` models the
flate2 GzEncoder, whose `finish` may fail), and base64-encode the
compressed bytes. -/
def ExportDeviceConfig.process (listener : DaemonListener) (serialize : DeviceConfig → String)
    (compress : String → Option (List Nat)) (request : Option ExportDeviceConfig) :
    Option ExportDeviceConfigResult :=
  match request with
  | none => none
  | some r =>
    match listener.get_device_config r.serial_number with
    | none => some ExportDeviceConfigResult.DeviceNotFound
    | some config =>
      match compress (serialize config) with
      | some byte_array => some (ExportDeviceConfigResult.Exported (base64_encode byte_array))
      | none => some ExportDeviceConfigResult.FailedToCompress

/-- Request payload of ImportDeviceConfig (daemon_data/config.rs, lines
279-283). -/
structure ImportDeviceConfig where
  serial_number : String
  config : String

/-- Response of ImportDeviceConfig (daemon_data/config.rs, lines
286-299). -/
inductive ImportDeviceConfigResult where
  | DeviceNotFound
  | InvalidConfig
  | FailedToSave
  | Imported
deriving DecidableEq

/-- The decompression stage of `ImportDeviceConfig::process`
(daemon_data/config.rs, lines 312-316): base64-decode the transported
string (failure is one InvalidConfig path) and gunzip the bytes back to
the serialized configuration (`decompress` models the flate2 GzDecoder;
its failure is the other InvalidConfig path, so both are merged into
`none` here). -/
def importDecompress (decompress : List Nat → Option String) (config : String) : Option String :=
  match base64_decode config with
  | Except.ok byte_array => decompress byte_array
  | Except.error _ => none

/-- Embedding of `ImportDeviceConfig::process` (daemon_data/config.rs,
lines 309-361), restricted to the response written (`parseConfig` models
`serde_json::from_str::<DeviceConfig>`; the serial/vid/pid overwrite,
set_device_config and the stack reset on success are side effects outside
the claims). -/
def ImportDeviceConfig.process (listener : DaemonListener) (decompress : List Nat → Option String)
    (parseConfig : String → Option DeviceConfig) (request : Option ImportDeviceConfig) :
    Option ImportDeviceConfigResult :=
  match request with
  | none => none
  | some r =>
    match importDecompress decompress r.config with
    | none => some ImportDeviceConfigResult.InvalidConfig
    | some config =>
      match parseConfig config with
      | none => some ImportDeviceConfigResult.InvalidConfig
      | some _ =>
        match listener.get_device r.serial_number with
        | none => some ImportDeviceConfigResult.DeviceNotFound
        | some _ =>
          match listener.save_device_config r.serial_number with
          | Except.ok _ => some ImportDeviceConfigResult.Imported
          | Except.error (ConfigError.IoError _) => some ImportDeviceConfigResult.FailedToSave
          | Except.error (ConfigError.ParseError _) => some ImportDeviceConfigResult.FailedToSave
          | Except.error ConfigError.DeviceNotFound => some ImportDeviceConfigResult.DeviceNotFound

/-- Concrete value-form panel used by witnesses. -/
def witnessPanel : RawButtonPanel :=
  { display_name := "root", data := Json.null, buttons := [] }

/-- Concrete device configuration used by witnesses. -/
def witnessConfig : DeviceConfig :=
  { serial := "dev01", vid := 1, pid := 2, brightness := 50,
    layout := witnessPanel, plugin_data := [] }

/-- Concrete daemon listener knowing exactly the device dev01, used by
witnesses. -/
def witnessListener : DaemonListener :=
  { get_device_config := fun s => if s = "dev01" then some witnessConfig else none,
    reload_device_config := fun s =>
      if s = "dev01" then Except.ok () else Except.error ConfigError.DeviceNotFound,
    save_device_config := fun s =>
      if s = "dev01" then Except.ok () else Except.error ConfigError.DeviceNotFound,
    get_device := fun s =>
      if s = "dev01" then some { serial := "dev01", vid := 1, pid := 2 } else none }

/-- Concrete daemon listener knowing no device at all, exercising the
unknown-serial paths. -/
def unknownListener : DaemonListener :=
  { get_device_config := fun _ => none,
    reload_device_config := fun _ => Except.error ConfigError.DeviceNotFound,
    save_device_config := fun _ => Except.error ConfigError.DeviceNotFound,
    get_device := fun _ => none }

/-! ### Theorems -/

/-- Helper: read_response returns the first packet whose requester field
(absent read as the empty string) equals the token, skipping all earlier
non-matching packets. -/
theorem read_response_skips_until_match (pre rest : List SocketPacket) (p : SocketPacket) (tok : String)
    (hpre : ∀ q ∈ pre, q.requester.getD ("") ≠ tok)
    (hp : p.requester.getD ("") = tok) :
    read_response ((pre ++ p :: rest).map Except.ok) tok = some (Except.ok p) := by
  induction pre with
  | nil => simp [read_response, hp]
  | cons q qs ih =>
    have hq : q.requester.getD ("") ≠ tok := hpre q (List.mem_cons_self q qs)
    simp only [List.cons_append, List.map_cons, read_response, if_neg hq]
    exact ih (fun x hx => hpre x (List.mem_cons_of_mem q hx))

/-- C2: the response-read loop returns the first packet read from the
connection whose requester field equals the waiter's correlation token,
and every earlier packet whose requester field does not equal the token is
discarded and never delivered to that waiter. -/
theorem read_response_first_match (pre rest : List SocketPacket) (p : SocketPacket) (tok : String)
    (hpre : ∀ q ∈ pre, q.requester.getD ("") ≠ tok)
    (hp : p.requester.getD ("") = tok) :
    read_response ((pre ++ p :: rest).map Except.ok) tok = some (Except.ok p) :=
  read_response_skips_until_match pre rest p tok hpre hp

/-- Witness for C2, following the spec's packet-stream example: a waiter on
token abc skips a broadcast packet and receives the correlated response. -/
theorem read_response_first_match_witness :
    read_response ([⟨"event", none, some ("something happened")⟩,
                    ⟨"ping", some ("abc"), some ("pong")⟩].map Except.ok) ("abc")
      = some (Except.ok ⟨"ping", some ("abc"), some ("pong")⟩) := by
  have h := read_response_first_match [⟨"event", none, some ("something happened")⟩] []
    ⟨"ping", some ("abc"), some ("pong")⟩ ("abc") (by decide) (by decide)
  simpa using h

/-- C9: a packet carrying no requester field is compared as if its
requester were the empty string, so a waiter whose correlation token is
the empty string receives the first token-less packet on the connection. -/
theorem read_response_empty_token (pre rest : List SocketPacket) (p : SocketPacket)
    (hpre : ∀ q ∈ pre, ∃ r, q.requester = some r ∧ r ≠ "")
    (hp : p.requester = none) :
    read_response ((pre ++ p :: rest).map Except.ok) ("") = some (Except.ok p) := by
  refine read_response_skips_until_match pre rest p ("") (fun q hq => ?_) (by simp [hp])
  obtain ⟨r, hr, hne⟩ := hpre q hq
  simpa [hr] using hne

/-- Witness for C9: a waiter with the empty token receives the first
broadcast packet even though it is not addressed to anyone. -/
theorem read_response_empty_token_witness :
    read_response ([⟨"get", some ("tok1"), none⟩,
                    ⟨"event", none, some ("broadcast")⟩].map Except.ok) ("")
      = some (Except.ok ⟨"event", none, some ("broadcast")⟩) := by
  have h := read_response_empty_token [⟨"get", some ("tok1"), none⟩] []
    ⟨"event", none, some ("broadcast")⟩
    (by intro q hq
        simp only [List.mem_singleton] at hq
        exact ⟨"tok1", by simp [hq]⟩)
    rfl
  simpa using h

/-- Helper: applying any sequence of stack operations to a non-empty stack
leaves it non-empty. -/
theorem applyStackOps_length (stack : List α) (ops : List (StackOp α)) (h : 1 ≤ stack.length) :
    1 ≤ (applyStackOps stack ops).length := by
  induction ops generalizing stack with
  | nil => simpa [applyStackOps]
  | cons op rest ih =>
    simp only [applyStackOps, List.foldl_cons]
    apply ih
    cases op with
    | push p => simp [applyStackOp, push_screen]
    | pop =>
      simp only [applyStackOp, pop_screen]
      split
      · exact h
      · rename_i hlen
        rw [List.length_dropLast]
        omega
    | folderUp =>
      simp only [applyStackOp, folder_up_action, get_stack, pop_screen]
      split
      · split
        · exact h
        · rename_i _ hlen
          rw [List.length_dropLast]
          omega
      · exact h

/-- C1 (amended): from any stack holding at least one frame, every
sequence of push/pop/folder-up operations leaves the stack non-empty, and
pop on a single-frame stack is a silent no-op that leaves that frame in
place; the stack is however empty at core construction, before reset
installs the root frame. -/
theorem stack_never_empty (stack : List α) (ops : List (StackOp α)) (h : 1 ≤ stack.length) :
    1 ≤ (applyStackOps stack ops).length ∧ ∀ p : α, pop_screen [p] = [p] := by
  refine ⟨applyStackOps_length stack ops h, fun p => ?_⟩
  simp [pop_screen]

/-- Witness for C1: a concrete push/pop sequence from a rooted stack never
empties it, and pop on the singleton stack is the identity. -/
theorem stack_never_empty_witness :
    1 ≤ (applyStackOps [0] [StackOp.push 1, StackOp.pop, StackOp.pop, StackOp.folderUp]).length
      ∧ ∀ p : Nat, pop_screen [p] = [p] :=
  stack_never_empty [0] [StackOp.push 1, StackOp.pop, StackOp.pop, StackOp.folderUp] (by decide)

/-- Counterexample for C1 as stated: a freshly constructed live core
(`SDCore::new`) has an empty panel stack — it does not contain a root
frame until `reset_stack` installs one. -/
theorem stack_empty_at_construction :
    ¬ 1 ≤ ((SDCore.new ("dev01") : SDCoreState Unit × List SDGlobalEvent).1.current_stack).length := by
  decide

/-- C5 (amended): closing a device core sets the liveness flag to closed
and broadcasts a DeviceDisconnected event to clients; it sends no command
at all on the outbound channel to the device worker (the worker observes
the liveness flag instead). -/
theorem close_sets_flag_no_shutdown_command (c : SDCoreState π) :
    (SDCore.close c).1.should_close = true
      ∧ (SDCore.close c).2.1 = [SDGlobalEvent.DeviceDisconnected c.serial_number]
      ∧ (SDCore.close c).2.2 = [] :=
  ⟨rfl, rfl, rfl⟩

/-- Counterexample for C5 as stated: closing a core sends no Shutdown
command on the device worker channel. -/
theorem close_sends_no_shutdown :
    DeviceThreadCommunication.Shutdown ∉ (SDCore.close (SDCore.blank (π := Unit) ("dev01"))).2.2 := by
  decide

/-- C4: once the key dispatch loop observes the liveness flag closed, no
later-delivered event is dispatched; every event of an iteration that
began before the flag was observed closed is dispatched to completion. -/
theorem run_loop_stops_after_close (pre rest : List (Bool × RecvResult)) (r : RecvResult)
    (h : ∀ x ∈ pre, x.1 = false ∧ x.2 ≠ RecvResult.disconnected) :
    run_loop (pre ++ (true, r) :: rest) = pre.filterMap (fun x => recv_action x.2) := by
  induction pre with
  | nil => simp [run_loop]
  | cons it its ih =>
    obtain ⟨flag, rr⟩ := it
    obtain ⟨hflag, hev⟩ := h (flag, rr) (List.mem_cons_self _ _)
    simp only at hflag
    subst hflag
    cases rr with
    | disconnected => exact absurd rfl hev
    | ev k s =>
      have ih2 := ih (fun x hx => h x (List.mem_cons_of_mem _ hx))
      simp [run_loop, recv_action, ih2]

/-- Witness for C4: with one event before the close observation and one
event delivered after it, exactly the first event is dispatched. -/
theorem run_loop_stops_after_close_witness :
    run_loop [(false, RecvResult.ev 1 true), (true, RecvResult.ev 2 true), (false, RecvResult.ev 3 false)]
      = [KeyAction.down 1] := by
  have h := run_loop_stops_after_close [(false, RecvResult.ev 1 true)]
    [(false, RecvResult.ev 3 false)] (RecvResult.ev 2 true) (by decide)
  simpa [recv_action, dispatch_key] using h

/-- Helper: when the delimiter does not occur in the prefix, the reader
accumulates exactly that prefix plus the delimiter and never touches the
rest of the stream. -/
theorem read_until_delim_append (pre rest : List Nat) (hpre : 4 ∉ pre) :
    read_until_delim 4 (pre ++ 4 :: rest) = pre ++ [4] := by
  induction pre with
  | nil => simp [read_until_delim]
  | cons b bs ih =>
    have hb : b ≠ 4 := fun h => hpre (h ▸ List.mem_cons_self b bs)
    have ih2 := ih (fun h => hpre (List.mem_cons_of_mem b h))
    simp [read_until_delim, if_neg hb, ih2]

/-- C6: the packet reader accumulates bytes up to the 0x04 delimiter
(ignoring the rest of the stream), strips the delimiter and surrounding
whitespace, and parses the remainder as UTF-8 JSON; stream I/O error,
invalid UTF-8, and JSON parse failure each yield their own distinct error
value rather than a panic. -/
theorem read_socket_spec (parse : String → Except String SocketPacket) (pre rest : List Nat) (e : String)
    (hpre : 4 ∉ pre) :
    read_socket parse (some e) (pre ++ 4 :: rest) = Except.error (SDClientError.SocketError e)
    ∧ read_until_delim 4 (pre ++ 4 :: rest) = pre ++ [4]
    ∧ (utf8Decode (pre ++ [4]) = none →
        read_socket parse none (pre ++ 4 :: rest) = Except.error SDClientError.Utf8Error)
    ∧ (∀ chars msg, utf8Decode (pre ++ [4]) = some chars →
        parse (String.mk (trim_chars (remove_eot chars))) = Except.error msg →
          read_socket parse none (pre ++ 4 :: rest) = Except.error (SDClientError.JsonError msg))
    ∧ (∀ chars p, utf8Decode (pre ++ [4]) = some chars →
        parse (String.mk (trim_chars (remove_eot chars))) = Except.ok p →
          read_socket parse none (pre ++ 4 :: rest) = Except.ok p)
    ∧ SDClientError.SocketError e ≠ SDClientError.Utf8Error
    ∧ (∀ m, SDClientError.SocketError e ≠ SDClientError.JsonError m)
    ∧ (∀ m, SDClientError.Utf8Error ≠ SDClientError.JsonError m) := by
  have hacc := read_until_delim_append pre rest hpre
  refine ⟨rfl, hacc, ?_, ?_, ?_, by simp, by simp, by simp⟩
  · intro hnone
    simp [read_socket, hacc, hnone]
  · intro chars msg hchars hparse
    simp [read_socket, hacc, hchars, hparse]
  · intro chars p hchars hparse
    simp [read_socket, hacc, hchars, hparse]

/-- Witness for C6: on a concrete stream, an I/O error yields SocketError,
an invalid byte yields Utf8Error, a non-JSON body yields JsonError, and a
well-formed body yields the parsed packet, with the delimiter and
trailing garbage ignored. -/
theorem read_socket_spec_witness :
    read_socket witnessParse (some ("boom")) ([104] ++ 4 :: [200])
        = Except.error (SDClientError.SocketError ("boom"))
    ∧ read_socket witnessParse none ([104] ++ 4 :: [200]) = Except.ok ⟨"ping", none, none⟩
    ∧ read_socket witnessParse none ([255] ++ 4 :: []) = Except.error SDClientError.Utf8Error
    ∧ read_socket witnessParse none ([32, 120] ++ 4 :: [])
        = Except.error (SDClientError.JsonError ("bad")) := by
  have h1 := read_socket_spec witnessParse [104] [200] ("boom") (by decide)
  have h2 := read_socket_spec witnessParse [255] [] ("boom") (by decide)
  have h3 := read_socket_spec witnessParse [32, 120] [] ("boom") (by decide)
  refine ⟨h1.1, ?_, ?_, ?_⟩
  · exact h1.2.2.2.2.1 [Char.ofNat 104, Char.ofNat 4] ⟨"ping", none, none⟩ (by decide)
      (by rfl)
  · exact h2.2.2.1 (by decide)
  · exact h3.2.2.2.1 [Char.ofNat 32, Char.ofNat 120, Char.ofNat 4] ("bad") (by decide)
      (by rfl)


/-- C8: a packet whose payload is absent or fails to parse as the
handler's request type is silently ignored by every config handler: no
response packet is written at all. -/
theorem malformed_payload_not_answered (listener : DaemonListener)
    (serialize : DeviceConfig → String) (compress : String → Option (List Nat))
    (decompress : List Nat → Option String) (parseConfig : String → Option DeviceConfig) :
    ReloadDeviceConfig.process listener none = none
    ∧ SaveDeviceConfig.process listener none = none
    ∧ GetDeviceConfig.process listener none = none
    ∧ ExportDeviceConfig.process listener serialize compress none = none
    ∧ ImportDeviceConfig.process listener decompress parseConfig none = none :=
  ⟨rfl, rfl, rfl, rfl, rfl⟩

/-- Helper: the alphabet scan inverts the alphabet table on every sextet
value. -/
theorem b64_round_fin : ∀ i : Fin 64, b64IndexOf (b64CharAt i.val) = some i.val := by
  decide

/-- Helper: bridging form of b64_round_fin with a bound hypothesis. -/
theorem b64IndexOf_b64CharAt (i : Nat) (h : i < 64) : b64IndexOf (b64CharAt i) = some i :=
  b64_round_fin ⟨i, h⟩

/-- Helper: no alphabet character is the padding character. -/
theorem b64_ne_pad_fin : ∀ i : Fin 64, b64CharAt i.val ≠ '=' := by
  decide

/-- Helper: bridging form of b64_ne_pad_fin with a bound hypothesis. -/
theorem b64CharAt_ne_pad (i : Nat) (h : i < 64) : b64CharAt i ≠ '=' :=
  b64_ne_pad_fin ⟨i, h⟩

/-- Helper: decoding inverts encoding on every byte list. -/
theorem base64_roundtrip_chunks : (bs : List Nat) → (∀ b ∈ bs, b < 256) →
    base64_decode_chunks (base64_encode_chunks bs) = some bs
  | [], _ => rfl
  | [a], h => by
    have ha : a < 256 := h a (by simp)
    have h1 : a / 4 < 64 := by omega
    have h2 : a % 4 * 16 < 64 := by omega
    have h3 : a % 4 * 16 % 16 = 0 := by omega
    simp [base64_encode_chunks, base64_decode_chunks,
      b64IndexOf_b64CharAt _ h1, b64IndexOf_b64CharAt _ h2, h3]
    omega
  | [a, b], h => by
    have ha : a < 256 := h a (by simp)
    have hb : b < 256 := h b (by simp)
    have h1 : a / 4 < 64 := by omega
    have h2 : a % 4 * 16 + b / 16 < 64 := by omega
    have h3 : b % 16 * 4 < 64 := by omega
    have h4 : b % 16 * 4 % 4 = 0 := by omega
    simp [base64_encode_chunks, base64_decode_chunks,
      b64IndexOf_b64CharAt _ h1, b64IndexOf_b64CharAt _ h2, b64IndexOf_b64CharAt _ h3,
      b64CharAt_ne_pad _ h3, h4]
    omega
  | a :: b :: c :: rest, h => by
    have ha : a < 256 := h a (by simp)
    have hb : b < 256 := h b (by simp)
    have hc : c < 256 := h c (by simp)
    have h1 : a / 4 < 64 := by omega
    have h2 : a % 4 * 16 + b / 16 < 64 := by omega
    have h3 : b % 16 * 4 + c / 64 < 64 := by omega
    have h4 : c % 64 < 64 := by omega
    have ih := base64_roundtrip_chunks rest (fun x hx => h x (by simp at hx ⊢; tauto))
    simp [base64_encode_chunks, base64_decode_chunks,
      b64IndexOf_b64CharAt _ h1, b64IndexOf_b64CharAt _ h2, b64IndexOf_b64CharAt _ h3,
      b64IndexOf_b64CharAt _ h4, b64CharAt_ne_pad _ h3, b64CharAt_ne_pad _ h4, ih]
    omega

/-- Helper: `base64::decode` inverts `base64::encode` on byte lists. -/
theorem base64_roundtrip (bytes : List Nat) (h : ∀ b ∈ bytes, b < 256) :
    base64_decode (base64_encode bytes) = Except.ok bytes := by
  unfold base64_decode base64_encode
  rw [show (String.mk (base64_encode_chunks bytes)).toList = base64_encode_chunks bytes from rfl]
  rw [base64_roundtrip_chunks bytes h]

/-- C3: exporting a device configuration (serialize, gzip, base64) and
then importing the resulting string reproduces, at the import pipeline's
decompression point, the original serialized configuration byte-for-byte;
the base64 transport layer is lossless, and the gzip codec is assumed
inverting (flate2 is an external collaborator). -/
theorem export_import_roundtrip (listener : DaemonListener) (serialize : DeviceConfig → String)
    (compress : String → Option (List Nat)) (decompress : List Nat → Option String)
    (cfg : DeviceConfig) (r : ExportDeviceConfig) (byte_array : List Nat)
    (hcfg : listener.get_device_config r.serial_number = some cfg)
    (hcomp : compress (serialize cfg) = some byte_array)
    (hbytes : ∀ b ∈ byte_array, b < 256)
    (hinv : decompress byte_array = some (serialize cfg)) :
    ExportDeviceConfig.process listener serialize compress (some r)
        = some (ExportDeviceConfigResult.Exported (base64_encode byte_array))
    ∧ importDecompress decompress (base64_encode byte_array) = some (serialize cfg) := by
  constructor
  · simp [ExportDeviceConfig.process, hcfg, hcomp]
  · simp [importDecompress, base64_roundtrip byte_array hbytes, hinv]

/-- Witness for C3: a concrete configuration exported through a concrete
codec comes back byte-identical after the import decode stage. -/
theorem export_import_roundtrip_witness :
    ExportDeviceConfig.process witnessListener (fun _ => "cfg") (fun _ => some [1, 2, 3])
        (some ⟨"dev01"⟩)
      = some (ExportDeviceConfigResult.Exported (base64_encode [1, 2, 3]))
    ∧ importDecompress (fun _ => some ("cfg")) (base64_encode [1, 2, 3]) = some ("cfg") := by
  have h := export_import_roundtrip witnessListener (fun _ => "cfg") (fun _ => some [1, 2, 3])
    (fun _ => some ("cfg")) witnessConfig ⟨"dev01"⟩ [1, 2, 3] rfl rfl (by decide) rfl
  exact h

/-- C7 (amended): a config request naming an unknown serial yields the
distinguished DeviceNotFound outcome — unconditionally for reload, save,
get and export, and for import provided the transported config blob
decodes and parses; an undecodable blob makes import answer InvalidConfig
regardless of the serial. -/
theorem unknown_serial_not_found (listener : DaemonListener)
    (serialize : DeviceConfig → String) (compress : String → Option (List Nat))
    (decompress : List Nat → Option String) (parseConfig : String → Option DeviceConfig)
    (serial : String)
    (hreload : listener.reload_device_config serial = Except.error ConfigError.DeviceNotFound)
    (hsave : listener.save_device_config serial = Except.error ConfigError.DeviceNotFound)
    (hget : listener.get_device_config serial = none)
    (hdev : listener.get_device serial = none) :
    ReloadDeviceConfig.process listener (some ⟨serial⟩) = some ReloadDeviceConfigResult.DeviceNotFound
    ∧ SaveDeviceConfig.process listener (some ⟨serial⟩) = some SaveDeviceConfigResult.DeviceNotFound
    ∧ GetDeviceConfig.process listener (some ⟨serial⟩) = some GetDeviceConfigResult.DeviceNotFound
    ∧ ExportDeviceConfig.process listener serialize compress (some ⟨serial⟩)
        = some ExportDeviceConfigResult.DeviceNotFound
    ∧ (∀ cfgStr str cfg, importDecompress decompress cfgStr = some str →
        parseConfig str = some cfg →
          ImportDeviceConfig.process listener decompress parseConfig (some ⟨serial, cfgStr⟩)
            = some ImportDeviceConfigResult.DeviceNotFound) := by
  refine ⟨?_, ?_, ?_, ?_, ?_⟩
  · simp [ReloadDeviceConfig.process, hreload]
  · simp [SaveDeviceConfig.process, hsave]
  · simp [GetDeviceConfig.process, hget]
  · simp [ExportDeviceConfig.process, hget]
  · intro cfgStr str cfg h1 h2
    simp [ImportDeviceConfig.process, h1, h2, hdev]

/-- Witness for C7: on a listener knowing no devices, every handler named
with an unknown serial (import fed a decodable empty config) answers
DeviceNotFound. -/
theorem unknown_serial_not_found_witness :
    ReloadDeviceConfig.process unknownListener (some ⟨"nodevice"⟩)
        = some ReloadDeviceConfigResult.DeviceNotFound
    ∧ SaveDeviceConfig.process unknownListener (some ⟨"nodevice"⟩)
        = some SaveDeviceConfigResult.DeviceNotFound
    ∧ GetDeviceConfig.process unknownListener (some ⟨"nodevice"⟩)
        = some GetDeviceConfigResult.DeviceNotFound
    ∧ ExportDeviceConfig.process unknownListener (fun _ => "") (fun _ => some [])
        (some ⟨"nodevice"⟩) = some ExportDeviceConfigResult.DeviceNotFound
    ∧ ImportDeviceConfig.process unknownListener (fun _ => some ("x"))
        (fun _ => some witnessConfig) (some ⟨"nodevice", base64_encode []⟩)
        = some ImportDeviceConfigResult.DeviceNotFound := by
  have h := unknown_serial_not_found unknownListener (fun _ => "") (fun _ => some [])
    (fun _ => some ("x")) (fun _ => some witnessConfig) ("nodevice") rfl rfl rfl rfl
  exact ⟨h.1, h.2.1, h.2.2.1, h.2.2.2.1,
    h.2.2.2.2 (base64_encode []) ("x") witnessConfig rfl rfl⟩

/-- Counterexample for C7 as stated: an import request naming an unknown
serial but carrying an undecodable config blob is answered with
InvalidConfig, not with the device-not-found outcome. -/
theorem import_unknown_serial_invalid_config :
    ImportDeviceConfig.process unknownListener (fun _ => some ("")) (fun _ => none)
        (some ⟨"nodevice", "!!!"⟩)
      = some ImportDeviceConfigResult.InvalidConfig
    ∧ (some ImportDeviceConfigResult.InvalidConfig
        ≠ some ImportDeviceConfigResult.DeviceNotFound) := by
  exact ⟨rfl, by decide⟩

/-- Helper: a successful association-list lookup locates a member. -/
theorem mem_of_lookup {β : Type} (a : String) (l : List (String × β)) (b : β)
    (h : List.lookup a l = some b) : (a, b) ∈ l := by
  induction l with
  | nil => simp [List.lookup] at h
  | cons kv rest ih =>
    obtain ⟨k, v⟩ := kv
    cases hak : (a == k) with
    | true =>
      simp only [List.lookup, hak] at h
      have hk : a = k := by simpa using hak
      simp only [Option.some.injEq] at h
      subst hk
      subst h
      exact List.mem_cons_self _ _
    | false =>
      simp only [List.lookup, hak] at h
      exact List.mem_cons_of_mem _ (ih h)

/-- Helper: the button-component ids of a looked-up folder all occur in
the folder map's component-id set. -/
theorem button_ids_mem_folder_ids (folders : FolderMap) (folder_id : String)
    (folder : RawButtonPanel) (h : FolderModule.get_folder folders folder_id = some folder) :
    ∀ x ∈ button_folder_ids folder.buttons, x ∈ folder_component_ids folders := by
  intro x hx
  have hmem := mem_of_lookup folder_id folders folder h
  simp only [folder_component_ids, List.mem_toFinset, List.mem_flatMap]
  exact ⟨(folder_id, folder), hmem, hx⟩

/-- Helper: the component-id set only shrinks along a sublist of the
folder map. -/
theorem folder_component_ids_mono (m2 m : FolderMap) (h : List.Sublist m2 m) :
    folder_component_ids m2 ⊆ folder_component_ids m := by
  intro x hx
  simp only [folder_component_ids, List.mem_toFinset, List.mem_flatMap] at hx ⊢
  obtain ⟨kv, hkv, hx2⟩ := hx
  exact ⟨kv, h.subset hkv, hx2⟩

/-- Helper: deleting a folder yields a sublist of the folder map. -/
theorem delete_folder_sublist (folders : FolderMap) (folder_id : String) :
    List.Sublist (FolderModule.delete_folder folders folder_id) folders :=
  List.filter_sublist folders

/-- Helper: an element of a tail's component ids is among the whole button
list's component ids. -/
theorem button_folder_ids_tail (p : Nat × Button) (rest : List (Nat × Button)) :
    ∀ x ∈ button_folder_ids rest, x ∈ button_folder_ids (p :: rest) := by
  intro x hx
  show x ∈ List.filterMap _ (p :: rest)
  rw [List.filterMap_cons]
  cases hf : (parse_button_to_folder p.2).map (fun fc => fc.id) with
  | none => exact hx
  | some y => exact List.mem_cons_of_mem y hx

/-- Helper: the button loop of the recursive deletion only shrinks the
folder map and only grows the visited set, given the same for the nested
recursive calls. -/
theorem del_buttons_shrink_of (fuel : Nat)
    (hrec : ∀ m folder_id ids m2 ids2,
      delete_folder_recursively fuel m folder_id ids = some (m2, ids2) →
        List.Sublist m2 m ∧ ∀ x ∈ ids, x ∈ ids2) :
    ∀ (buttons : List (Nat × Button)) m ids m2 ids2,
      delete_folder_buttons fuel m buttons ids = some (m2, ids2) →
        List.Sublist m2 m ∧ ∀ x ∈ ids, x ∈ ids2 := by
  intro buttons
  induction buttons with
  | nil =>
    intro m ids m2 ids2 h
    simp only [delete_folder_buttons, Option.some.injEq, Prod.mk.injEq] at h
    exact ⟨h.1 ▸ List.Sublist.refl _, fun x hx => h.2 ▸ hx⟩
  | cons b rest ih =>
    intro m ids m2 ids2 h
    obtain ⟨k, button⟩ := b
    cases hpb : parse_button_to_folder button with
    | none =>
      simp only [delete_folder_buttons, hpb] at h
      exact ih _ _ _ _ h
    | some fc =>
      simp only [delete_folder_buttons, hpb] at h
      by_cases hmem : fc.id ∈ ids
      · rw [if_pos hmem] at h
        exact ih _ _ _ _ h
      · rw [if_neg hmem] at h
        cases hrc : delete_folder_recursively fuel m fc.id (fc.id :: ids) with
        | none => rw [hrc] at h; simp at h
        | some pair =>
          obtain ⟨mA, idsA⟩ := pair
          rw [hrc] at h
          have hA := hrec m fc.id (fc.id :: ids) mA idsA hrc
          have hB := ih _ _ _ _ h
          refine ⟨hB.1.trans hA.1, fun x hx => ?_⟩
          exact hB.2 x (hA.2 x (List.mem_cons_of_mem _ hx))

/-- Helper: the recursive deletion only shrinks the folder map and only
grows the visited set. -/
theorem del_rec_shrink : ∀ fuel m folder_id ids m2 ids2,
    delete_folder_recursively fuel m folder_id ids = some (m2, ids2) →
      List.Sublist m2 m ∧ ∀ x ∈ ids, x ∈ ids2 := by
  intro fuel
  induction fuel with
  | zero =>
    intro m fid ids m2 ids2 h
    simp [delete_folder_recursively] at h
  | succ n ih =>
    intro m fid ids m2 ids2 h
    cases hget : FolderModule.get_folder m fid with
    | none =>
      simp only [delete_folder_recursively, hget, Option.some.injEq, Prod.mk.injEq] at h
      exact ⟨h.1 ▸ List.Sublist.refl _, fun x hx => h.2 ▸ hx⟩
    | some folder =>
      simp only [delete_folder_recursively, hget] at h
      cases hb : delete_folder_buttons n m folder.buttons ids with
      | none => rw [hb] at h; simp at h
      | some pair =>
        obtain ⟨mB, idsB⟩ := pair
        rw [hb] at h
        simp only [Option.some.injEq, Prod.mk.injEq] at h
        have hB := del_buttons_shrink_of n ih folder.buttons m ids mB idsB hb
        exact ⟨h.1 ▸ ((delete_folder_sublist mB fid).trans hB.1),
               fun x hx => h.2 ▸ hB.2 x hx⟩

/-- Helper: the button loop completes when the visited set already covers
all but at most `fuel` of the reachable component ids, given the same for
the nested recursive calls. -/
theorem del_buttons_total_of (F : Finset String) (fuel : Nat)
    (hrec : ∀ m folder_id ids, folder_component_ids m ⊆ F →
      (F \ ids.toFinset).card < fuel →
        (delete_folder_recursively fuel m folder_id ids).isSome) :
    ∀ (buttons : List (Nat × Button)) m ids, folder_component_ids m ⊆ F →
      (∀ x ∈ button_folder_ids buttons, x ∈ F) →
      (F \ ids.toFinset).card ≤ fuel →
        (delete_folder_buttons fuel m buttons ids).isSome := by
  intro buttons
  induction buttons with
  | nil =>
    intro m ids _ _ _
    simp [delete_folder_buttons]
  | cons b rest ih =>
    intro m ids hm hbtn hcard
    obtain ⟨k, button⟩ := b
    cases hpb : parse_button_to_folder button with
    | none =>
      simp only [delete_folder_buttons, hpb]
      exact ih m ids hm (fun x hx => hbtn x (button_folder_ids_tail _ _ x hx)) hcard
    | some fc =>
      by_cases hmem : fc.id ∈ ids
      · simp only [delete_folder_buttons, hpb, if_pos hmem]
        exact ih m ids hm (fun x hx => hbtn x (button_folder_ids_tail _ _ x hx)) hcard
      · have hfcF : fc.id ∈ F := by
          apply hbtn
          show fc.id ∈ List.filterMap _ ((k, button) :: rest)
          rw [List.filterMap_cons]
          have : (parse_button_to_folder button).map (fun fc => fc.id) = some fc.id := by
            rw [hpb]; rfl
          rw [this]
          exact List.mem_cons_self _ _
        have hmemF : fc.id ∈ F \ ids.toFinset :=
          Finset.mem_sdiff.mpr ⟨hfcF, by simpa using hmem⟩
        have hlt : (F \ (fc.id :: ids).toFinset).card < fuel := by
          have heq : (F \ (fc.id :: ids).toFinset).card = ((F \ ids.toFinset).erase fc.id).card := by
            rw [List.toFinset_cons, Finset.sdiff_insert]
          have hlt2 := Finset.card_erase_lt_of_mem hmemF
          omega
        have hsome := hrec m fc.id (fc.id :: ids) hm hlt
        obtain ⟨pair, hpair⟩ := Option.isSome_iff_exists.mp hsome
        obtain ⟨mA, idsA⟩ := pair
        have hshr := del_rec_shrink fuel m fc.id (fc.id :: ids) mA idsA hpair
        have hmA : folder_component_ids mA ⊆ F :=
          (folder_component_ids_mono mA m hshr.1).trans hm
        have hcardA : (F \ idsA.toFinset).card ≤ fuel := by
          have hsub : (fc.id :: ids).toFinset ⊆ idsA.toFinset := by
            intro x hx
            rw [List.mem_toFinset] at hx ⊢
            exact hshr.2 x hx
          have hsd : F \ idsA.toFinset ⊆ F \ (fc.id :: ids).toFinset :=
            Finset.sdiff_subset_sdiff (Finset.Subset.refl F) hsub
          have hle := Finset.card_le_card hsd
          omega
        simp only [delete_folder_buttons, hpb, if_neg hmem, hpair]
        exact ih mA idsA hmA (fun x hx => hbtn x (button_folder_ids_tail _ _ x hx)) hcardA

/-- Helper: the recursive deletion completes whenever the fuel exceeds the
number of reachable component ids not yet visited. -/
theorem del_rec_total (F : Finset String) : ∀ fuel m folder_id ids,
    folder_component_ids m ⊆ F → (F \ ids.toFinset).card < fuel →
      (delete_folder_recursively fuel m folder_id ids).isSome := by
  intro fuel
  induction fuel with
  | zero =>
    intro m fid ids _ hc
    exact absurd hc (Nat.not_lt_zero _)
  | succ n ih =>
    intro m fid ids hm hc
    cases hget : FolderModule.get_folder m fid with
    | none => simp [delete_folder_recursively, hget]
    | some folder =>
      have hbids : ∀ x ∈ button_folder_ids folder.buttons, x ∈ F := fun x hx =>
        hm (button_ids_mem_folder_ids m fid folder hget x hx)
      have hcard : (F \ ids.toFinset).card ≤ n := by omega
      have hb := del_buttons_total_of F n ih folder.buttons m ids hm hbids hcard
      obtain ⟨pair, hpair⟩ := Option.isSome_iff_exists.mp hb
      obtain ⟨mB, idsB⟩ := pair
      simp [delete_folder_recursively, hget, hpair]

/-- C10: recursive folder deletion terminates on every folder map, cyclic
component references included — fuel exceeding the number of distinct
folder-component ids in the map always suffices, because every recursive
descent first adds a fresh id to the visited set, which only grows. -/
theorem delete_folder_recursively_terminates (folders : FolderMap) (folder_id : String) :
    (delete_folder_recursively ((folder_component_ids folders).card + 1)
        folders folder_id []).isSome := by
  apply del_rec_total (folder_component_ids folders)
  · exact fun x hx => hx
  · simp
